import Mathlib

/-!
Shallow embedding of the maintenance-issue pipeline
(`src/magneto/gmail.py` and `src/magneto/backend.py`).

External collaborators (the Gmail store, the `json` library, the Cerebras
model, the Notion and Slack clients) are out of scope of the repository;
they are modelled as explicit parameters/oracles.  Everything the
repository's own code computes (string extraction, category validation,
defaulting, count dictionaries, truncation, error handling around the
collaborator calls) is translated directly from the Python source.
-/

namespace Magneto

/-- The fixed five-value category list (`MAINTENANCE_CATEGORIES` in both
`gmail.py` and `backend.py`). -/
def MAINTENANCE_CATEGORIES : List String :=
  ["Electrical", "Plumbing", "IT Support", "HVAC", "General Inquiry"]

/-- A normalized issue record, as produced by `fetch_gmail_issues`
(`{id, subject, sender, date, snippet}`). -/
structure IssueRecord where
  id : String
  subject : String
  sender : String
  date : String
  snippet : String
deriving DecidableEq, Repr

/-- A fully populated analysis, as returned by the `gmail.py` classifier
(after its `setdefault` calls every field is present). -/
structure AnalysisResult where
  category : String
  summary : String
  priority : String
  root_cause : String
  action_items : List String
deriving DecidableEq, Repr

/-- The dictionary returned by the `backend.py` classifier: `category` is
always assigned (validated/coerced), the other keys are present only when
the parsed JSON supplied them (no `setdefault` in that variant). -/
structure AnalysisDict where
  category : String
  summary : Option String
  priority : Option String
  root_cause : Option String
  action_items : Option (List String)
deriving DecidableEq, Repr

/-- The relevant shape of a successfully `json.loads`-parsed model
completion: a JSON object whose five known keys may each be absent. -/
structure JsonAnalysis where
  category : Option String
  summary : Option String
  priority : Option String
  root_cause : Option String
  action_items : Option (List String)
deriving DecidableEq, Repr

/-- Behaviour of one `cerebras_llm.invoke` call: it either raises or
completes with free text. -/
inductive LlmOutcome where
  | raises
  | completes (text : String)
deriving DecidableEq, Repr

/-! ### Python string primitives used by the classifier -/

/-- Python `str.strip()`: drop whitespace from both ends. -/
def pyStrip (s : String) : String :=
  ⟨((s.data.dropWhile Char.isWhitespace).reverse.dropWhile Char.isWhitespace).reverse⟩

/-- Python `str.find(c)`: index of the first occurrence, `-1` if absent. -/
def pyFind (s : String) (c : Char) : Int :=
  match s.data.findIdx? (fun x => x = c) with
  | none => -1
  | some i => (i : Int)

/-- Python `str.rfind(c)`: index of the last occurrence, `-1` if absent. -/
def pyRfind (s : String) (c : Char) : Int :=
  match s.data.reverse.findIdx? (fun x => x = c) with
  | none => -1
  | some i => ((s.data.length - 1 - i : Nat) : Int)

/-- Python slice `s[a:b]` for `0 ≤ a ≤ b` (the only case the classifier
reaches: `a = json_start ≥ 0`, `b = json_end > a`). -/
def pySlice (s : String) (a b : Int) : String :=
  ⟨(s.data.drop a.toNat).take (b.toNat - a.toNat)⟩

/-- Lines 187-191 of `gmail.py` (identically 252-256 of `backend.py`):
`json_start = response_text.find('\x7b')`,
`json_end = response_text.rfind('\x7d') + 1`; the substring is taken when
`json_start != -1 and json_end > json_start`, otherwise a `ValueError`
is raised (modelled as `none`). -/
def extractJson (response_text : String) : Option String :=
  let json_start := pyFind response_text '\x7b'
  let json_end := pyRfind response_text '\x7d' + 1
  if json_start ≠ -1 ∧ json_end > json_start then
    some (pySlice response_text json_start json_end)
  else
    none

/-! ### The two classifier variants

The model integration is a parameter: `llm = none` models
`cerebras_llm is None`; `some .raises` models `invoke` raising;
`some (.completes t)` models a completion with content `t`.
`jsonLoads` is the (external) `json.loads` oracle: `none` models a
`json.JSONDecodeError`. -/

/-- The `except Exception` fallback of `gmail.py` (lines 208-217). -/
def Gmail.classifyFallback (issue : IssueRecord) : AnalysisResult :=
  { category := "General Inquiry"
    summary := issue.snippet
    priority := "Medium"
    root_cause := "Classification failed - manual review needed"
    action_items := ["Manual classification required", "Review email content"] }

/-- `classify_maintenance_issue` from `gmail.py` (lines 135-217). -/
def Gmail.classify_maintenance_issue
    (jsonLoads : String → Option JsonAnalysis)
    (llm : Option LlmOutcome) (issue : IssueRecord) : AnalysisResult :=
  match llm with
  | none =>
    { category := "General Inquiry"
      summary := issue.snippet
      priority := "Medium"
      root_cause := "Unable to determine (AI not configured)"
      action_items := ["Manual review required"] }
  | some .raises => Gmail.classifyFallback issue
  | some (.completes text) =>
    let response_text := pyStrip text
    match extractJson response_text with
    | none => Gmail.classifyFallback issue
    | some json_str =>
      match jsonLoads json_str with
      | none => Gmail.classifyFallback issue
      | some analysis =>
        { category :=
            match analysis.category with
            | some c => if c ∈ MAINTENANCE_CATEGORIES then c else "General Inquiry"
            | none => "General Inquiry"
          summary := analysis.summary.getD issue.snippet
          priority := analysis.priority.getD "Medium"
          root_cause := analysis.root_cause.getD "To be determined"
          action_items := analysis.action_items.getD ["Review and assess"] }

/-- The `except Exception` fallback of `backend.py` (lines 266-274). -/
def Backend.classifyFallback (issue : IssueRecord) : AnalysisDict :=
  { category := "General Inquiry"
    summary := some issue.snippet
    priority := some "Medium"
    root_cause := some "Classification failed"
    action_items := some ["Manual review required"] }

/-- `classify_maintenance_issue` from `backend.py` (lines 209-274).  Unlike
the `gmail.py` variant it applies no `setdefault` calls: on the success
path only `category` is validated, all other keys pass through as parsed. -/
def Backend.classify_maintenance_issue
    (jsonLoads : String → Option JsonAnalysis)
    (llm : Option LlmOutcome) (issue : IssueRecord) : AnalysisDict :=
  match llm with
  | none =>
    { category := "General Inquiry"
      summary := some issue.snippet
      priority := some "Medium"
      root_cause := some "AI not configured - manual review needed"
      action_items := some ["Manual classification required"] }
  | some .raises => Backend.classifyFallback issue
  | some (.completes text) =>
    let response_text := pyStrip text
    match extractJson response_text with
    | none => Backend.classifyFallback issue
    | some json_str =>
      match jsonLoads json_str with
      | none => Backend.classifyFallback issue
      | some analysis =>
        { category :=
            match analysis.category with
            | some c => if c ∈ MAINTENANCE_CATEGORIES then c else "General Inquiry"
            | none => "General Inquiry"
          summary := analysis.summary
          priority := analysis.priority
          root_cause := analysis.root_cause
          action_items := analysis.action_items }

/-- A model behaviour is degraded for the classifier when the model is not
configured, raises, or returns text with no extractable/parsable JSON. -/
def DegradedBehavior (jsonLoads : String → Option JsonAnalysis)
    (llm : Option LlmOutcome) : Prop :=
  llm = none ∨ llm = some .raises ∨
    ∃ t, llm = some (.completes t) ∧
      (extractJson (pyStrip t) = none ∨
        ∀ s, extractJson (pyStrip t) = some s → jsonLoads s = none)

instance (jl : String → Option JsonAnalysis) (llm : Option LlmOutcome) :
    Decidable (DegradedBehavior jl llm) := by
  unfold DegradedBehavior
  cases llm with
  | none => exact .isTrue (Or.inl rfl)
  | some o =>
    cases o with
    | raises => exact .isTrue (Or.inr (Or.inl rfl))
    | completes t =>
      cases h : extractJson (pyStrip t) with
      | none =>
        exact .isTrue (Or.inr (Or.inr ⟨t, rfl, Or.inl h⟩))
      | some s =>
        cases hj : jl s with
        | none =>
          refine .isTrue (Or.inr (Or.inr ⟨t, rfl, Or.inr ?_⟩))
          intro s' hs'
          rw [h] at hs'
          cases hs'
          exact hj
        | some a =>
          refine .isFalse ?_
          rintro (hc | hc | ⟨t', ht', hrest⟩)
          · exact Option.noConfusion hc
          · exact LlmOutcome.noConfusion (Option.some.inj hc)
          · have ht : t = t' := LlmOutcome.completes.inj (Option.some.inj ht')
            subst ht
            rcases hrest with he | hp
            · rw [h] at he
              exact Option.noConfusion he
            · have := hp s h
              rw [hj] at this
              exact Option.noConfusion this

/-! ### Python dictionaries with string keys and `Nat` values

A Python `dict` is modelled as an insertion-ordered association list:
`d[k] = v` updates in place or appends, `d.get(k, 0)` looks up with a
default.  Insertion order is what `dict.items()` iterates in. -/

/-- `d[k] = v`. -/
def dictSet : List (String × Nat) → String → Nat → List (String × Nat)
  | [], k, v => [(k, v)]
  | (k', v') :: rest, k, v =>
    if k' = k then (k, v) :: rest else (k', v') :: dictSet rest k v

/-- `d.get(k)` (`None` when absent). -/
def dictGet : List (String × Nat) → String → Option Nat
  | [], _ => none
  | (k', v') :: rest, k => if k' = k then some v' else dictGet rest k

/-- `d.get(k, default)`. -/
def dictGetD (d : List (String × Nat)) (k : String) (v : Nat) : Nat :=
  (dictGet d k).getD v

/-- Sum of a dictionary's values. -/
def valuesSum (d : List (String × Nat)) : Nat :=
  (d.map Prod.snd).sum

/-! ### The Aggregator (`generate_daily_summary_with_ai`, `gmail.py` 442-537) -/

/-- One `{"issue": ..., "analysis": ...}` pair accumulated by `main`. -/
structure ProcessedItem where
  issue : IssueRecord
  analysis : AnalysisResult
deriving DecidableEq, Repr

/-- The counting loop of `generate_daily_summary_with_ai` (lines 448-457):
`category_counts` starts empty and is incremented per item;
`priority_counts` starts at `{"High": 0, "Medium": 0, "Low": 0}` and each
iteration executes `priority_counts[priority] = priority_counts.get(priority, 0)`
— with no `+ 1`. -/
def summaryStep (d : List (String × Nat) × List (String × Nat))
    (item : ProcessedItem) : List (String × Nat) × List (String × Nat) :=
  let category := item.analysis.category
  let priority := item.analysis.priority
  (dictSet d.1 category (dictGetD d.1 category 0 + 1),
   dictSet d.2 priority (dictGetD d.2 priority 0))

/-- The two dictionaries after the counting loop, starting from
`category_counts = ` and `priority_counts = {"High": 0, "Medium": 0, "Low": 0}`. -/
def summaryCounts (items : List ProcessedItem) :
    List (String × Nat) × List (String × Nat) :=
  items.foldl summaryStep ([], [("High", 0), ("Medium", 0), ("Low", 0)])

/-- Category-to-emoji lookup repeated at `gmail.py` 503-504 and 521-522
(`.get(cat, "📋")`). -/
def categoryEmoji (cat : String) : String :=
  match cat with
  | "Electrical" => "⚡"
  | "Plumbing" => "🚰"
  | "IT Support" => "💻"
  | "HVAC" => "🌡️"
  | _ => "📋"

/-- Stable descending insertion by count: `x` goes in front of the first
entry with a strictly smaller count. -/
def insertByCountDesc (x : String × Nat) :
    List (String × Nat) → List (String × Nat)
  | [] => [x]
  | y :: ys => if y.2 < x.2 then x :: y :: ys else y :: insertByCountDesc x ys

/-- Python `sorted(d.items(), key=lambda x: x[1], reverse=True)` (stable). -/
def sortedByCountDesc (d : List (String × Nat)) : List (String × Nat) :=
  d.foldl (fun acc x => insertByCountDesc x acc) []

/-- The `"• <cat>: <count>"` category lines of the summary (lines 502-505
and 520-523). -/
def categoryLines (cats : List (String × Nat)) : String :=
  (sortedByCountDesc cats).foldl
    (fun acc p => acc ++ "• " ++ categoryEmoji p.1 ++ " " ++ p.1 ++ ": " ++
      toString p.2 ++ "\n")
    ""

/-- The statistics header prepended to the model's narrative
(`gmail.py` 494-505). -/
def aiHeader (today : String) (total : Nat)
    (cats prios : List (String × Nat)) : String :=
  "📅 *Daily Maintenance Report* - " ++ today ++ "\n\n📊 *Quick Stats:*\n" ++
    "• Total Issues: " ++ toString total ++
    "\n• High Priority: " ++ toString (dictGetD prios "High" 0) ++
    " | Medium: " ++ toString (dictGetD prios "Medium" 0) ++
    " | Low: " ++ toString (dictGetD prios "Low" 0) ++
    "\n\n📂 *By Category:*\n" ++ categoryLines cats

/-- The `"<idx>. [<cat>] <pri>: <subject[:60]>..."` top-issues lines over
`issues_with_analysis[:5]` (lines 533-535). -/
def topIssuesLines (items : List ProcessedItem) : String :=
  ((items.take 5).enumFrom 1).foldl
    (fun acc p => acc ++ toString p.1 ++ ". [" ++ p.2.analysis.category ++ "] " ++
      p.2.analysis.priority ++ ": " ++ ⟨p.2.issue.subject.data.take 60⟩ ++ "...\n")
    ""

/-- The fully deterministic fallback summary (lines 513-537). -/
def fallbackSummary (today : String) (total : Nat)
    (cats prios : List (String × Nat)) (items : List ProcessedItem) : String :=
  "📅 *Daily Maintenance Report* - " ++ today ++
    "\n\n📊 *Summary:*\nTotal Issues Processed: " ++ toString total ++
    "\n\n📂 *By Category:*\n" ++ categoryLines cats ++
    "\n🚨 *By Priority:*\n• 🔴 High: " ++ toString (dictGetD prios "High" 0) ++
    "\n• 🟡 Medium: " ++ toString (dictGetD prios "Medium" 0) ++
    "\n• 🟢 Low: " ++ toString (dictGetD prios "Low" 0) ++
    "\n\n📋 *Top Issues:*\n" ++ topIssuesLines items

/-- `generate_daily_summary_with_ai` (`gmail.py` 442-537).  `llm = none`
models the model being unconfigured, `some .raises` an `invoke` failure
(caught, falling through to the deterministic summary), and
`some (.completes narrative)` a narrative completion.  `today` stands for
`datetime.datetime.now().strftime('%Y-%m-%d')`. -/
def generate_daily_summary_with_ai (llm : Option LlmOutcome) (today : String)
    (issues_with_analysis : List ProcessedItem) : String :=
  if issues_with_analysis = [] then
    "📅 *Daily Maintenance Report*\n\nNo issues processed today."
  else
    let counts := summaryCounts issues_with_analysis
    let total := issues_with_analysis.length
    match llm with
    | some (.completes narrative) =>
      aiHeader today total counts.1 counts.2 ++ "\n" ++
        String.mk (List.replicate 50 '=') ++ "\n\n" ++ pyStrip narrative
    | some .raises => fallbackSummary today total counts.1 counts.2 issues_with_analysis
    | none => fallbackSummary today total counts.1 counts.2 issues_with_analysis

/-! ### Dashboard statistics (`get_dashboard_stats`, `backend.py` 496-539) -/

/-- An issue dictionary flowing through the backend, whose `analysis` key
may or may not be set. -/
structure EmailIssue where
  issue : IssueRecord
  analysis : Option AnalysisResult
deriving DecidableEq, Repr

/-- The counting loop of `get_dashboard_stats` (lines 511-519): both
dictionaries behave as in the Aggregator except that here the priority
update *does* add 1; items without an `analysis` key are skipped. -/
def dashboardStep (d : List (String × Nat) × List (String × Nat))
    (issue : EmailIssue) : List (String × Nat) × List (String × Nat) :=
  match issue.analysis with
  | none => d
  | some analysis =>
    let cat := analysis.category
    let pri := analysis.priority
    (dictSet d.1 cat (dictGetD d.1 cat 0 + 1),
     dictSet d.2 pri (dictGetD d.2 pri 0 + 1))

/-- The two dictionaries after the statistics loop of `get_dashboard_stats`. -/
def dashboardCounts (classified_issues : List EmailIssue) :
    List (String × Nat) × List (String × Nat) :=
  classified_issues.foldl dashboardStep
    ([], [("High", 0), ("Medium", 0), ("Low", 0)])

/-- Python `round()` to the nearest integer (banker's rounding: ties go
to the even neighbour), on the exact rational value. -/
def pyRoundHalfEven (q : ℚ) : ℤ :=
  let f := ⌊q⌋
  let r := q - (f : ℚ)
  if r < 1/2 then f
  else if 1/2 < r then f + 1
  else if f % 2 = 0 then f else f + 1

/-- Python `round(x, 1)` on the exact rational value. -/
def round1 (q : ℚ) : ℚ :=
  (pyRoundHalfEven (q * 10) : ℚ) / 10

/-- The percentage expression of `backend.py` line 526:
`round((count / total) * 100, 1) if total > 0 else 0`. -/
def percentage (count total : Nat) : ℚ :=
  if total > 0 then round1 ((count : ℚ) / (total : ℚ) * 100) else 0

/-- The `category_stats` list comprehension (lines 522-529): one
`(category, count, percentage)` triple per `category_counts` entry, in
dictionary insertion order. -/
def categoryStats (category_counts : List (String × Nat)) (total : Nat) :
    List (String × Nat × ℚ) :=
  category_counts.map (fun p => (p.1, p.2, percentage p.2 total))

/-! ### Sinks

Write outcomes of the external clients are oracles.  Python exception
types matter: `add_to_notion` catches `Exception` (everything), while
`send_slack_message` / `send_slack_notification` catch only
`SlackApiError`. -/

/-- An exception raised by a collaborator call: either a `SlackApiError`
or any other exception type. -/
inductive PyError where
  | slackApi (msg : String)
  | other (msg : String)
deriving DecidableEq, Repr

/-- What a sink call did, as observed by its caller. -/
inductive SinkResult where
  | skipped
  | wrote
  | failedLogged (e : PyError)
deriving DecidableEq, Repr

/-- `add_to_notion` (`gmail.py` 223-318, `backend.py` 276-328): no-op when
the Notion client is unconfigured; otherwise the write outcome is caught
by `except Exception` and logged, never re-raised. -/
def add_to_notion (configured : Bool) (writeOutcome : Option PyError) :
    Except PyError SinkResult :=
  if configured = false then
    .ok .skipped
  else
    match writeOutcome with
    | none => .ok .wrote
    | some e => .ok (.failedLogged e)

/-- `send_slack_message` (`gmail.py` 323-341): no-op when the Slack client
is unconfigured; `except SlackApiError` catches only that type, so any
other exception from `chat_postMessage` propagates. -/
def send_slack_message (configured : Bool) (postOutcome : Option PyError) :
    Except PyError SinkResult :=
  if configured = false then
    .ok .skipped
  else
    match postOutcome with
    | none => .ok .wrote
    | some (.slackApi m) => .ok (.failedLogged (.slackApi m))
    | some (.other m) => .error (.other m)

/-- `send_slack_notification` (`backend.py` 330-383): same guard and same
`except SlackApiError`-only handler as `send_slack_message`. -/
def send_slack_notification (configured : Bool) (postOutcome : Option PyError) :
    Except PyError SinkResult :=
  if configured = false then
    .ok .skipped
  else
    match postOutcome with
    | none => .ok .wrote
    | some (.slackApi m) => .ok (.failedLogged (.slackApi m))
    | some (.other m) => .error (.other m)

/-! ### Payload text fields submitted to the external stores -/

/-- Python `s[:n]` (truncation to the first `n` characters). -/
def pyTruncate (s : String) (n : Nat) : String :=
  ⟨s.data.take n⟩

/-- `"\n".join([f"• \x7bitem\x7d" for item in ...])` (`gmail.py` 231). -/
def actionItemsText (action_items : List String) : String :=
  String.intercalate "\n" (action_items.map (fun item => "• " ++ item))

/-- The same join in `backend.py` 282 (its source carries mojibake bullet
characters). -/
def actionItemsTextB (action_items : List String) : String :=
  String.intercalate "\n" (action_items.map (fun item => "‚Ä¢ " ++ item))

/-- The free-text contents of the Notion page created by `add_to_notion`
in `gmail.py` (lines 234-314): subject and sender properties plus the
summary, root-cause, action-items and snippet paragraph blocks — each
written as `x[:2000]`. -/
def Gmail.notionContents (issue : IssueRecord) (analysis : AnalysisResult) :
    List String :=
  [pyTruncate issue.subject 2000,
   pyTruncate issue.sender 2000,
   pyTruncate analysis.summary 2000,
   pyTruncate analysis.root_cause 2000,
   pyTruncate (actionItemsText analysis.action_items) 2000,
   pyTruncate issue.snippet 2000]

/-- The free-text contents of the Notion page created by `add_to_notion`
in `backend.py` (lines 284-326): same fields, without the snippet block. -/
def Backend.notionContents (issue : IssueRecord) (analysis : AnalysisResult) :
    List String :=
  [pyTruncate issue.subject 2000,
   pyTruncate issue.sender 2000,
   pyTruncate analysis.summary 2000,
   pyTruncate analysis.root_cause 2000,
   pyTruncate (actionItemsTextB analysis.action_items) 2000]

/-- Priority-to-emoji lookup of `format_maintenance_slack_message`
(`gmail.py` 355-362, `.get(..., "🟡")`). -/
def priorityEmoji (pri : String) : String :=
  match pri with
  | "High" => "🔴"
  | "Medium" => "🟡"
  | "Low" => "🟢"
  | _ => "🟡"

/-- `format_maintenance_slack_message` (`gmail.py` 343-436), modelled as
the fallback text plus the list of text contents of the rich blocks, in
block order.  `now` stands for `datetime.datetime.now().strftime(...)`.
No field is truncated in this function. -/
def Gmail.format_maintenance_slack_message (now : String)
    (issue : IssueRecord) (analysis : AnalysisResult) : String × List String :=
  let category_emoji := categoryEmoji analysis.category
  let priority_emoji := priorityEmoji analysis.priority
  let action_items_text := actionItemsText analysis.action_items
  let blocks :=
    [category_emoji ++ " New Maintenance Request",
     "*Category:*\n" ++ category_emoji ++ " " ++ analysis.category,
     "*Priority:*\n" ++ priority_emoji ++ " " ++ analysis.priority,
     "*From:*\n" ++ issue.sender,
     "*Date:*\n" ++ now,
     "*Subject:*\n" ++ issue.subject,
     "*📋 Summary:*\n" ++ analysis.summary,
     "*🔍 Root Cause:*\n" ++ analysis.root_cause,
     "*✅ Action Items:*\n" ++ action_items_text]
  let fallback_text := category_emoji ++ " " ++ analysis.category ++ " - " ++
    analysis.priority ++ " Priority: " ++ issue.subject
  (fallback_text, blocks)

/-- The block text contents built inside `send_slack_notification`
(`backend.py` 336-381; its emoji literals are mojibake in the source).
No field is truncated in this function either. -/
def Backend.slackBlockTexts (issue : IssueRecord) (analysis : AnalysisResult) :
    List String :=
  let category_emoji :=
    match analysis.category with
    | "Electrical" => "‚ö°"
    | "Plumbing" => "üö∞"
    | "IT Support" => "üíª"
    | "HVAC" => "üå°Ô∏è"
    | "General Inquiry" => "üìã"
    | _ => "üìã"
  let priority_emoji :=
    match analysis.priority with
    | "High" => "üî¥"
    | "Medium" => "üü°"
    | "Low" => "üü¢"
    | _ => "üü°"
  let action_items := actionItemsTextB analysis.action_items
  [category_emoji ++ " New Maintenance Request",
   "*Category:*\n" ++ category_emoji ++ " " ++ analysis.category,
   "*Priority:*\n" ++ priority_emoji ++ " " ++ analysis.priority,
   "*Subject:*\n" ++ issue.subject,
   "*üìã Summary:*\n" ++ analysis.summary,
   "*üîç Root Cause:*\n" ++ analysis.root_cause,
   "*‚úÖ Action Items:*\n" ++ action_items]

/-! ### Mail fetch normalization (`fetch_gmail_issues`) -/

/-- One Gmail payload header (`{"name": ..., "value": ...}`). -/
structure GmailHeader where
  name : String
  value : String
deriving DecidableEq, Repr

/-- The parts of a fetched Gmail message the normalization reads: its id,
its payload headers, and its optional `snippet` key. -/
structure GmailMessage where
  id : String
  headers : List GmailHeader
  snippet : Option String
deriving DecidableEq, Repr

/-- `next((h["value"] for h in headers if h["name"] == name), default)`:
the value of the first header with the given name, if any. -/
def headerValue (headers : List GmailHeader) (name : String) : Option String :=
  (headers.find? (fun h => h.name = name)).map (fun h => h.value)

/-- The per-message normalization of `fetch_gmail_issues` (`gmail.py`
111-127, identically `backend.py` 185-203): missing `Subject` →
`"(No Subject)"`, missing `From` → `"(Unknown)"`, missing `Date` → `""`,
missing `snippet` → `""`. -/
def normalizeMessage (m : GmailMessage) : IssueRecord :=
  { id := m.id
    subject := (headerValue m.headers "Subject").getD "(No Subject)"
    sender := (headerValue m.headers "From").getD "(Unknown)"
    date := (headerValue m.headers "Date").getD ""
    snippet := m.snippet.getD "" }

/-- `fetch_gmail_issues`, given the message list the Gmail store returns. -/
def fetch_gmail_issues (msgs : List GmailMessage) : List IssueRecord :=
  msgs.map normalizeMessage

/-! ### Pipeline drivers -/

/-- A background task scheduled by `process_emails` via
`background_tasks.add_task` (runs only after the response is built, so
its outcome cannot influence the returned result). -/
inductive SinkTask where
  | notionWrite (issue : IssueRecord) (analysis : AnalysisDict)
  | slackPost (issue : IssueRecord) (analysis : AnalysisDict)
deriving DecidableEq, Repr

/-- The structured result of `POST /api/emails/process`. -/
structure ProcessResponse where
  status : String
  message : String
  processed : Nat
  issues : List (IssueRecord × AnalysisDict)
  tasks : List SinkTask
deriving DecidableEq, Repr

/-- `process_emails` (`backend.py` 452-494) after a successful fetch:
classify each issue in order, collect it, and schedule the configured
sinks as background tasks.  `classify` stands for
`classify_maintenance_issue` with the ambient model state. -/
def Backend.processStep (classify : IssueRecord → AnalysisDict)
    (notionConfigured slackConfigured send_notifications : Bool)
    (acc : List (IssueRecord × AnalysisDict) × List SinkTask)
    (issue : IssueRecord) :
    List (IssueRecord × AnalysisDict) × List SinkTask :=
  let analysis := classify issue
  (acc.1 ++ [(issue, analysis)],
   acc.2 ++
     (if notionConfigured then [SinkTask.notionWrite issue analysis] else []) ++
     (if send_notifications && slackConfigured then
        [SinkTask.slackPost issue analysis] else []))

/-- `process_emails` (`backend.py` 452-494) after a successful fetch:
classify each issue in order, collect it, and schedule the configured
sinks as background tasks. -/
def Backend.process_emails (classify : IssueRecord → AnalysisDict)
    (notionConfigured slackConfigured send_notifications : Bool)
    (fetched : List IssueRecord) : ProcessResponse :=
  if fetched = [] then
    { status := "success", message := "No emails found", processed := 0,
      issues := [], tasks := [] }
  else
    let r := fetched.foldl
      (Backend.processStep classify notionConfigured slackConfigured
        send_notifications)
      (([] : List (IssueRecord × AnalysisDict)), ([] : List SinkTask))
    { status := "success",
      message := "Processed " ++ toString r.1.length ++ " emails",
      processed := r.1.length, issues := r.1, tasks := r.2 }

/-- The per-issue loop of `main` (`gmail.py` 556-579): classify, collect,
`add_to_notion` (catches everything), then `send_slack_message` (catches
only `SlackApiError`; any other exception escapes the loop and aborts the
run).  On success it yields `issues_with_analysis` in fetch order. -/
def Gmail.mainLoop (classify : IssueRecord → AnalysisResult)
    (notionConfigured slackConfigured : Bool)
    (notionOutcome slackOutcome : IssueRecord → Option PyError) :
    List IssueRecord → Except PyError (List ProcessedItem)
  | [] => .ok []
  | issue :: rest =>
    let analysis := classify issue
    match add_to_notion notionConfigured (notionOutcome issue) with
    | .error e => .error e
    | .ok _ =>
      match send_slack_message slackConfigured (slackOutcome issue) with
      | .error e => .error e
      | .ok _ =>
        match Gmail.mainLoop classify notionConfigured slackConfigured
            notionOutcome slackOutcome rest with
        | .error e => .error e
        | .ok items => .ok ({ issue := issue, analysis := analysis } :: items)

/-- The Boolean "this backend issue is classified with priority `q`". -/
def hasPriority (q : String) (i : EmailIssue) : Bool :=
  match i.analysis with
  | some a => a.priority = q
  | none => false

/-! ### Concrete sample inputs used to instantiate the properties -/

/-- A sample normalized issue record. -/
def sampleIssue : IssueRecord :=
  { id := "msg-1"
    subject := "AC not cooling in room 204"
    sender := "alice@example.com"
    date := "Mon, 6 Oct 2025 09:00:00 +0000"
    snippet := "The AC unit in room 204 stopped cooling this morning." }

/-- A second sample issue. -/
def sampleIssue2 : IssueRecord :=
  { id := "msg-2"
    subject := "Leaking faucet"
    sender := "bob@example.com"
    date := "Mon, 6 Oct 2025 10:00:00 +0000"
    snippet := "The kitchen faucet drips." }

/-- A `json.loads` oracle that always fails. -/
def jlFail : String → Option JsonAnalysis := fun _ => none

/-- A `json.loads` oracle returning a JSON object that carries only
`"category": "Electrical"`. -/
def jlElectricalOnly : String → Option JsonAnalysis :=
  fun _ => some { category := some "Electrical", summary := none,
                  priority := none, root_cause := none, action_items := none }

/-- A fully populated sample analysis. -/
def sampleAnalysis : AnalysisResult :=
  { category := "Electrical"
    summary := "Breaker tripped."
    priority := "High"
    root_cause := "Overloaded circuit."
    action_items := ["Reset breaker", "Inspect wiring"] }

/-- A string of 2001 characters (that is, longer than the 2000-unit
store limit). -/
def longText : String :=
  ⟨List.replicate 2001 'a'⟩

/-- A sample analysis whose summary is 2001 characters long. -/
def longAnalysis : AnalysisResult :=
  { category := "Electrical"
    summary := longText
    priority := "High"
    root_cause := "Overloaded circuit."
    action_items := ["Reset breaker"] }

/-- Three processed items with priorities High, High, Low. -/
def sampleItems : List ProcessedItem :=
  [{ issue := sampleIssue,
     analysis := { category := "HVAC", summary := "s1", priority := "High",
                   root_cause := "r1", action_items := ["a1"] } },
   { issue := sampleIssue2,
     analysis := { category := "Plumbing", summary := "s2", priority := "High",
                   root_cause := "r2", action_items := ["a2"] } },
   { issue := sampleIssue,
     analysis := { category := "HVAC", summary := "s3", priority := "Low",
                   root_cause := "r3", action_items := ["a3"] } }]

/-- A fetched message with no headers and no snippet key. -/
def emptyMessage : GmailMessage :=
  { id := "msg-7", headers := [], snippet := none }

/-- A batch of three classified issues with categories
Electrical, Electrical, Plumbing (the §8 dashboard example). -/
def demoBatch : List EmailIssue :=
  [{ issue := sampleIssue,
     analysis := some { category := "Electrical", summary := "s1",
                        priority := "High", root_cause := "r1",
                        action_items := ["a1"] } },
   { issue := sampleIssue2,
     analysis := some { category := "Electrical", summary := "s2",
                        priority := "Medium", root_cause := "r2",
                        action_items := ["a2"] } },
   { issue := sampleIssue,
     analysis := some { category := "Plumbing", summary := "s3",
                        priority := "Low", root_cause := "r3",
                        action_items := ["a3"] } }]

end Magneto

/-! ## Helper lemmas -/

namespace Magneto

theorem dictGet_dictSet_self (d : List (String × Nat)) (k : String) (v : Nat) :
    dictGet (dictSet d k v) k = some v := by
  induction d with
  | nil => simp [dictSet, dictGet]
  | cons hd tl ih =>
    obtain ⟨k', v'⟩ := hd
    by_cases h : k' = k
    · simp [dictSet, dictGet, h]
    · simp [dictSet, dictGet, h, ih]

theorem dictGet_dictSet_ne (d : List (String × Nat)) {k q : String} (v : Nat)
    (h : k ≠ q) : dictGet (dictSet d k v) q = dictGet d q := by
  induction d with
  | nil => simp [dictSet, dictGet, h]
  | cons hd tl ih =>
    obtain ⟨k', v'⟩ := hd
    by_cases hk : k' = k
    · subst hk
      simp [dictSet, dictGet, h]
    · by_cases hq : k' = q
      · subst hq
        simp [dictSet, dictGet, hk]
      · simp [dictSet, dictGet, hk, hq, ih]

theorem dictGetD_dictSet_self (d : List (String × Nat)) (k : String)
    (v dflt : Nat) : dictGetD (dictSet d k v) k dflt = v := by
  simp [dictGetD, dictGet_dictSet_self]

theorem dictGetD_dictSet_ne (d : List (String × Nat)) {k q : String}
    (v dflt : Nat) (h : k ≠ q) :
    dictGetD (dictSet d k v) q dflt = dictGetD d q dflt := by
  simp [dictGetD, dictGet_dictSet_ne d v h]

theorem valuesSum_dictSet_incr (d : List (String × Nat)) (k : String) :
    valuesSum (dictSet d k (dictGetD d k 0 + 1)) = valuesSum d + 1 := by
  induction d with
  | nil => simp [dictSet, dictGetD, dictGet, valuesSum]
  | cons hd tl ih =>
    obtain ⟨k', v'⟩ := hd
    by_cases h : k' = k
    · subst h
      have h1 : dictGetD ((k', v') :: tl) k' 0 = v' := by
        simp [dictGetD, dictGet]
      have h2 : dictSet ((k', v') :: tl) k' (v' + 1) = (k', v' + 1) :: tl := by
        simp [dictSet]
      rw [h1, h2]
      simp [valuesSum]
      omega
    · have h1 : dictGetD ((k', v') :: tl) k 0 = dictGetD tl k 0 := by
        simp [dictGetD, dictGet, h]
      have h2 : dictSet ((k', v') :: tl) k (dictGetD tl k 0 + 1) =
          (k', v') :: dictSet tl k (dictGetD tl k 0 + 1) := by
        simp [dictSet, h]
      rw [h1, h2]
      have h3 : valuesSum ((k', v') :: dictSet tl k (dictGetD tl k 0 + 1)) =
          v' + valuesSum (dictSet tl k (dictGetD tl k 0 + 1)) := by
        simp [valuesSum]
      have h4 : valuesSum ((k', v') :: tl) = v' + valuesSum tl := by
        simp [valuesSum]
      rw [h3, h4, ih]
      omega

theorem dictGetD_zero_of_all_zero {d : List (String × Nat)}
    (h : ∀ p ∈ d, p.2 = 0) (k : String) : dictGetD d k 0 = 0 := by
  induction d with
  | nil => rfl
  | cons hd tl ih =>
    obtain ⟨k', v'⟩ := hd
    by_cases hk : k' = k
    · have hv : v' = 0 := h (k', v') (by simp)
      simp [dictGetD, dictGet, hk, hv]
    · simp only [dictGetD, dictGet, hk, if_neg, ne_eq, not_false_iff]
      exact ih (fun p hp => h p (List.mem_cons_of_mem _ hp))

theorem all_zero_dictSet_zero {d : List (String × Nat)}
    (h : ∀ p ∈ d, p.2 = 0) (k : String) :
    ∀ p ∈ dictSet d k 0, p.2 = 0 := by
  induction d with
  | nil =>
    intro p hp
    simp [dictSet] at hp
    simp [hp]
  | cons hd tl ih =>
    obtain ⟨k', v'⟩ := hd
    intro p hp
    by_cases hk : k' = k
    · simp [dictSet, hk] at hp
      rcases hp with hp | hp
      · simp [hp]
      · exact h p (List.mem_cons_of_mem _ hp)
    · simp [dictSet, hk] at hp
      rcases hp with hp | hp
      · exact h p (by simp [hp])
      · exact ih (fun q hq => h q (List.mem_cons_of_mem _ hq)) p hp

theorem summaryFold_cat_sum (items : List ProcessedItem) :
    ∀ dp : List (String × Nat) × List (String × Nat),
      valuesSum (items.foldl summaryStep dp).1 = valuesSum dp.1 + items.length := by
  induction items with
  | nil => intro dp; simp
  | cons it tl ih =>
    intro dp
    rw [List.foldl_cons, ih]
    have : valuesSum (summaryStep dp it).1 = valuesSum dp.1 + 1 := by
      simp [summaryStep, valuesSum_dictSet_incr]
    rw [this]
    simp
    omega

theorem summaryFold_pri_zero (items : List ProcessedItem) :
    ∀ dp : List (String × Nat) × List (String × Nat),
      (∀ p ∈ dp.2, p.2 = 0) → ∀ p ∈ (items.foldl summaryStep dp).2, p.2 = 0 := by
  induction items with
  | nil => intro dp h; exact h
  | cons it tl ih =>
    intro dp h
    rw [List.foldl_cons]
    refine ih (summaryStep dp it) ?_
    have hz : dictGetD dp.2 it.analysis.priority 0 = 0 :=
      dictGetD_zero_of_all_zero h _
    intro p hp
    have : (summaryStep dp it).2 = dictSet dp.2 it.analysis.priority 0 := by
      simp [summaryStep, hz]
    rw [this] at hp
    exact all_zero_dictSet_zero h _ p hp

theorem dashFold_pri_count (issues : List EmailIssue) :
    ∀ (dp : List (String × Nat) × List (String × Nat)) (q : String),
      dictGetD (issues.foldl dashboardStep dp).2 q 0 =
        dictGetD dp.2 q 0 + issues.countP (hasPriority q) := by
  induction issues with
  | nil => intro dp q; simp
  | cons i tl ih =>
    intro dp q
    rw [List.foldl_cons, ih]
    rcases ha : i.analysis with _ | a
    · have hstep : dashboardStep dp i = dp := by
        simp [dashboardStep, ha]
      have hcount : hasPriority q i = false := by
        simp [hasPriority, ha]
      rw [hstep, List.countP_cons, hcount]
      simp
    · have hstep : (dashboardStep dp i).2 =
          dictSet dp.2 a.priority (dictGetD dp.2 a.priority 0 + 1) := by
        simp [dashboardStep, ha]
      rw [hstep, List.countP_cons]
      by_cases hq : a.priority = q
      · subst hq
        rw [dictGetD_dictSet_self]
        have : hasPriority a.priority i = true := by
          simp [hasPriority, ha]
        rw [this]
        simp
        omega
      · rw [dictGetD_dictSet_ne _ _ _ hq]
        have : hasPriority q i = false := by
          simp [hasPriority, ha, hq]
        rw [this]
        simp

theorem processFold_issues (classify : IssueRecord → AnalysisDict)
    (nC sC sN : Bool) (fetched : List IssueRecord) :
    ∀ acc : List (IssueRecord × AnalysisDict) × List SinkTask,
      (fetched.foldl (Backend.processStep classify nC sC sN) acc).1 =
        acc.1 ++ fetched.map (fun i => (i, classify i)) := by
  induction fetched with
  | nil => intro acc; simp
  | cons i tl ih =>
    intro acc
    rw [List.foldl_cons, ih]
    simp [Backend.processStep]

theorem pyTruncate_length_le (s : String) (n : Nat) :
    (pyTruncate s n).length ≤ n := by
  show (s.data.take n).length ≤ n
  rw [List.length_take]
  exact min_le_left _ _

theorem add_to_notion_ok (c : Bool) (o : Option PyError) :
    ∃ r, add_to_notion c o = .ok r := by
  cases c <;> cases o <;> simp [add_to_notion]

theorem send_slack_message_ok_of_api (c : Bool) (o : Option PyError)
    (h : ∀ m, o ≠ some (.other m)) : ∃ r, send_slack_message c o = .ok r := by
  cases c with
  | false => simp [send_slack_message]
  | true =>
    rcases o with _ | e
    · simp [send_slack_message]
    · cases e with
      | slackApi m => simp [send_slack_message]
      | other m => exact absurd rfl (h m)

theorem mainLoop_ok_of_no_other (classify : IssueRecord → AnalysisResult)
    (nC sC : Bool) (nOut sOut : IssueRecord → Option PyError) :
    ∀ issues : List IssueRecord,
      (∀ i ∈ issues, ∀ m, sOut i ≠ some (.other m)) →
      Gmail.mainLoop classify nC sC nOut sOut issues =
        .ok (issues.map (fun i => { issue := i, analysis := classify i })) := by
  intro issues
  induction issues with
  | nil => intro _; rfl
  | cons i tl ih =>
    intro h
    obtain ⟨r1, hr1⟩ := add_to_notion_ok nC (nOut i)
    obtain ⟨r2, hr2⟩ := send_slack_message_ok_of_api sC (sOut i)
      (h i (List.mem_cons_self i tl))
    have htl := ih (fun j hj m => h j (List.mem_cons_of_mem _ hj) m)
    simp only [Gmail.mainLoop, hr1, hr2, htl, List.map_cons]

theorem mainLoop_ok_inv (classify : IssueRecord → AnalysisResult)
    (nC sC : Bool) (nOut sOut : IssueRecord → Option PyError) :
    ∀ (issues : List IssueRecord) (ps : List ProcessedItem),
      Gmail.mainLoop classify nC sC nOut sOut issues = .ok ps →
      ps = issues.map (fun i => { issue := i, analysis := classify i }) := by
  intro issues
  induction issues with
  | nil =>
    intro ps h
    simp only [Gmail.mainLoop] at h
    cases h
    rfl
  | cons i tl ih =>
    intro ps h
    simp only [Gmail.mainLoop] at h
    obtain ⟨r1, hr1⟩ := add_to_notion_ok nC (nOut i)
    rw [hr1] at h
    rcases hs : send_slack_message sC (sOut i) with e | r2 <;> rw [hs] at h
    · exact absurd h (by simp)
    · rcases hm : Gmail.mainLoop classify nC sC nOut sOut tl with e | items <;>
        rw [hm] at h
      · exact absurd h (by simp)
      · cases h
        rw [ih items hm]
        rfl

end Magneto

/-! ## Claim theorems -/

open Magneto

/-- C1: for every input issue record and every degraded behaviour of the
model (not configured, raising, or returning text with no brace pair or
with unparsable JSON between the braces), both variants of
`classify_maintenance_issue` return a result — the embedding is a total
function mirroring the `try/except Exception` structure of the source —
and that result is the deterministic fallback: category
`"General Inquiry"`, priority `"Medium"`, and a non-empty
`action_items` list. -/
theorem claim_C1 (issue : IssueRecord) (jl : String → Option JsonAnalysis)
    (llm : Option LlmOutcome) (h : DegradedBehavior jl llm) :
    ((Gmail.classify_maintenance_issue jl llm issue).category = "General Inquiry" ∧
     (Gmail.classify_maintenance_issue jl llm issue).priority = "Medium" ∧
     (Gmail.classify_maintenance_issue jl llm issue).action_items ≠ []) ∧
    ((Backend.classify_maintenance_issue jl llm issue).category = "General Inquiry" ∧
     (Backend.classify_maintenance_issue jl llm issue).priority = some "Medium" ∧
     ∃ l, (Backend.classify_maintenance_issue jl llm issue).action_items = some l ∧
       l ≠ []) := by
  rcases h with rfl | rfl | ⟨t, rfl, hcase⟩
  · exact ⟨⟨rfl, rfl, by simp [Gmail.classify_maintenance_issue]⟩, rfl, rfl,
      ["Manual classification required"], rfl, by simp⟩
  · exact ⟨⟨rfl, rfl, by simp [Gmail.classify_maintenance_issue,
      Gmail.classifyFallback]⟩, rfl, rfl, ["Manual review required"], rfl, by simp⟩
  · rcases hcase with he | hp
    · simp [Gmail.classify_maintenance_issue, Backend.classify_maintenance_issue,
        he, Gmail.classifyFallback, Backend.classifyFallback]
    · cases hs : extractJson (pyStrip t) with
      | none =>
        simp [Gmail.classify_maintenance_issue, Backend.classify_maintenance_issue,
          hs, Gmail.classifyFallback, Backend.classifyFallback]
      | some s =>
        have hj := hp s hs
        simp [Gmail.classify_maintenance_issue, Backend.classify_maintenance_issue,
          hs, hj, Gmail.classifyFallback, Backend.classifyFallback]

/-- Witness for C1 at a concrete degraded input (model not configured). -/
theorem claim_C1_witness :
    DegradedBehavior jlFail (none : Option LlmOutcome) ∧
    (((Gmail.classify_maintenance_issue jlFail none sampleIssue).category =
        "General Inquiry" ∧
      (Gmail.classify_maintenance_issue jlFail none sampleIssue).priority =
        "Medium" ∧
      (Gmail.classify_maintenance_issue jlFail none sampleIssue).action_items ≠ []) ∧
     ((Backend.classify_maintenance_issue jlFail none sampleIssue).category =
        "General Inquiry" ∧
      (Backend.classify_maintenance_issue jlFail none sampleIssue).priority =
        some "Medium" ∧
      ∃ l, (Backend.classify_maintenance_issue jlFail none sampleIssue).action_items =
        some l ∧ l ≠ [])) :=
  ⟨Or.inl rfl, claim_C1 sampleIssue jlFail none (Or.inl rfl)⟩

/-- C2: when the model completion parses to a JSON object, each of the five
fixed category values is returned unchanged by both classifier variants,
and any other (or missing) category value is coerced to
`"General Inquiry"`. -/
theorem claim_C2 (issue : IssueRecord) (jl : String → Option JsonAnalysis)
    (t s : String) (a : JsonAnalysis)
    (hs : extractJson (pyStrip t) = some s) (hj : jl s = some a) :
    (∀ c, a.category = some c → c ∈ MAINTENANCE_CATEGORIES →
      (Gmail.classify_maintenance_issue jl (some (.completes t)) issue).category = c ∧
      (Backend.classify_maintenance_issue jl (some (.completes t)) issue).category = c) ∧
    (∀ c, a.category = some c → c ∉ MAINTENANCE_CATEGORIES →
      (Gmail.classify_maintenance_issue jl (some (.completes t)) issue).category =
        "General Inquiry" ∧
      (Backend.classify_maintenance_issue jl (some (.completes t)) issue).category =
        "General Inquiry") ∧
    (a.category = none →
      (Gmail.classify_maintenance_issue jl (some (.completes t)) issue).category =
        "General Inquiry" ∧
      (Backend.classify_maintenance_issue jl (some (.completes t)) issue).category =
        "General Inquiry") := by
  refine ⟨fun c hc hmem => ?_, fun c hc hmem => ?_, fun hc => ?_⟩
  · simp [Gmail.classify_maintenance_issue, Backend.classify_maintenance_issue,
      hs, hj, hc, hmem]
  · simp [Gmail.classify_maintenance_issue, Backend.classify_maintenance_issue,
      hs, hj, hc, hmem]
  · simp [Gmail.classify_maintenance_issue, Backend.classify_maintenance_issue,
      hs, hj, hc]

/-- Witness for C2: a completion `"\x7b\x7d"` whose JSON parses to
`\x7b"category": "Electrical"\x7d` yields category `"Electrical"` in both
variants. -/
theorem claim_C2_witness :
    extractJson (pyStrip "\x7b\x7d") = some "\x7b\x7d" ∧
    jlElectricalOnly "\x7b\x7d" =
      some { category := some "Electrical", summary := none, priority := none,
             root_cause := none, action_items := none } ∧
    (Gmail.classify_maintenance_issue jlElectricalOnly
      (some (.completes "\x7b\x7d")) sampleIssue).category = "Electrical" ∧
    (Backend.classify_maintenance_issue jlElectricalOnly
      (some (.completes "\x7b\x7d")) sampleIssue).category = "Electrical" :=
  ⟨by decide, rfl,
    (claim_C2 sampleIssue jlElectricalOnly "\x7b\x7d" "\x7b\x7d"
      { category := some "Electrical", summary := none, priority := none,
        root_cause := none, action_items := none }
      (by decide) rfl).1 "Electrical" rfl (by decide)⟩

/-- C3 counterexample: the claim speaks of `classify_maintenance_issue`
filling every missing field with its default, citing both variants, but
the `backend.py` variant applies no defaults: on a completion whose JSON
parses to an object carrying only a category, its returned dictionary has
no `summary`, `priority`, `root_cause` or `action_items` key at all
(in particular `priority` is not `"Medium"`). -/
theorem claim_C3_counterexample :
    (Backend.classify_maintenance_issue jlElectricalOnly
      (some (.completes "\x7b\x7d")) sampleIssue).priority = none ∧
    (Backend.classify_maintenance_issue jlElectricalOnly
      (some (.completes "\x7b\x7d")) sampleIssue).summary = none ∧
    (Backend.classify_maintenance_issue jlElectricalOnly
      (some (.completes "\x7b\x7d")) sampleIssue).root_cause = none ∧
    (Backend.classify_maintenance_issue jlElectricalOnly
      (some (.completes "\x7b\x7d")) sampleIssue).action_items = none := by
  decide

/-- C3 (amended): the `gmail.py` variant fills each missing field of a
structurally parsed completion with its default (`summary` → the issue's
snippet, `priority` → `"Medium"`, `root_cause` → `"To be determined"`,
`action_items` → `["Review and assess"]`), so its result always has all
five fields; the `backend.py` variant validates only the category and
returns the remaining fields exactly as parsed, filling nothing. -/
theorem claim_C3_amended (issue : IssueRecord)
    (jl : String → Option JsonAnalysis) (t s : String) (a : JsonAnalysis)
    (hs : extractJson (pyStrip t) = some s) (hj : jl s = some a) :
    ((Gmail.classify_maintenance_issue jl (some (.completes t)) issue).summary =
        a.summary.getD issue.snippet ∧
     (Gmail.classify_maintenance_issue jl (some (.completes t)) issue).priority =
        a.priority.getD "Medium" ∧
     (Gmail.classify_maintenance_issue jl (some (.completes t)) issue).root_cause =
        a.root_cause.getD "To be determined" ∧
     (Gmail.classify_maintenance_issue jl (some (.completes t)) issue).action_items =
        a.action_items.getD ["Review and assess"]) ∧
    ((Backend.classify_maintenance_issue jl (some (.completes t)) issue).summary =
        a.summary ∧
     (Backend.classify_maintenance_issue jl (some (.completes t)) issue).priority =
        a.priority ∧
     (Backend.classify_maintenance_issue jl (some (.completes t)) issue).root_cause =
        a.root_cause ∧
     (Backend.classify_maintenance_issue jl (some (.completes t)) issue).action_items =
        a.action_items) := by
  simp [Gmail.classify_maintenance_issue, Backend.classify_maintenance_issue, hs, hj]

/-- Witness for the amended C3 at the concrete parsed completion
`\x7b"category": "Electrical"\x7d`. -/
theorem claim_C3_amended_witness :
    extractJson (pyStrip "\x7b\x7d") = some "\x7b\x7d" ∧
    (Gmail.classify_maintenance_issue jlElectricalOnly
      (some (.completes "\x7b\x7d")) sampleIssue).priority = "Medium" ∧
    (Gmail.classify_maintenance_issue jlElectricalOnly
      (some (.completes "\x7b\x7d")) sampleIssue).summary = sampleIssue.snippet ∧
    (Backend.classify_maintenance_issue jlElectricalOnly
      (some (.completes "\x7b\x7d")) sampleIssue).priority = none := by
  have h := claim_C3_amended sampleIssue jlElectricalOnly "\x7b\x7d" "\x7b\x7d"
    { category := some "Electrical", summary := none, priority := none,
      root_cause := none, action_items := none } (by decide) rfl
  exact ⟨by decide, h.1.2.1, h.1.1, h.2.2.1⟩

/-- C4: the narrative daily-summary loop
(`generate_daily_summary_with_ai`) initializes the priority counts over
High/Medium/Low but never increments them, so for every non-empty batch
every priority count it computes (in particular the three reported in the
statistics header) is zero; the dashboard loop (`get_dashboard_stats`)
does increment, so there each priority's count equals the number of items
classified with that priority. -/
theorem claim_C4 (items : List ProcessedItem) (_h : items ≠ []) :
    (∀ p : String, dictGetD (summaryCounts items).2 p 0 = 0) ∧
    (∀ (issues : List EmailIssue) (q : String),
      dictGetD (dashboardCounts issues).2 q 0 = issues.countP (hasPriority q)) := by
  constructor
  · intro p
    have hz : ∀ kv ∈ (summaryCounts items).2, kv.2 = 0 := by
      apply summaryFold_pri_zero items
      intro kv hkv
      fin_cases hkv <;> rfl
    exact dictGetD_zero_of_all_zero hz p
  · intro issues q
    have hc := dashFold_pri_count issues
      ([], [("High", 0), ("Medium", 0), ("Low", 0)]) q
    have hz : dictGetD [("High", 0), ("Medium", 0), ("Low", 0)] q 0 = 0 := by
      apply dictGetD_zero_of_all_zero
      intro kv hkv
      fin_cases hkv <;> rfl
    rw [dashboardCounts, hc, hz, Nat.zero_add]

/-- Witness for C4: on a concrete batch with priorities High, High, Low,
the narrative-summary count for "High" is 0 while the dashboard count for
"High" is 2. -/
theorem claim_C4_witness :
    sampleItems ≠ [] ∧
    dictGetD (summaryCounts sampleItems).2 "High" 0 = 0 ∧
    dictGetD (dashboardCounts demoBatch).2 "High" 0 =
      demoBatch.countP (hasPriority "High") := by
  have h := claim_C4 sampleItems (by simp [sampleItems])
  exact ⟨by simp [sampleItems], h.1 "High", h.2 demoBatch "High"⟩

/-- C5 counterexample: in the CLI pipeline (`main` of `gmail.py`) a
notification-sink failure that is not a `SlackApiError` is not caught
(`except SlackApiError` only), so on a two-issue batch whose first Slack
post raises such an error the run aborts and the second issue is never
processed — contradicting "a failure of one issue's ticket or
notification sink call does not prevent any subsequent issue from being
processed". -/
theorem claim_C5_counterexample :
    Gmail.mainLoop (fun i => Gmail.classifyFallback i) false true
      (fun _ => none) (fun _ => some (.other "connection reset"))
      [sampleIssue, sampleIssue2] = .error (.other "connection reset") := by
  rfl

/-- C5 (amended): in the backend variant (`process_emails`) every
successful fetch of `n` records yields status `success`, processed count
`n`, and the fetched records classified exactly once each, in fetch
order; sink writes are scheduled as background tasks and cannot affect
this result.  In the CLI variant (`main`), any run that reaches its
success state has likewise processed every fetched record exactly once
in fetch order, and ticket-sink failures (all caught) and notification
failures of type `SlackApiError` (the only type caught) do not prevent
subsequent issues; a non-`SlackApiError` notification failure aborts the
run. -/
theorem claim_C5_amended :
    (∀ (classify : IssueRecord → AnalysisDict) (nC sC sN : Bool)
       (fetched : List IssueRecord),
      (Backend.process_emails classify nC sC sN fetched).status = "success" ∧
      (Backend.process_emails classify nC sC sN fetched).processed =
        fetched.length ∧
      (Backend.process_emails classify nC sC sN fetched).issues =
        fetched.map (fun i => (i, classify i))) ∧
    (∀ (classify : IssueRecord → AnalysisResult) (nC sC : Bool)
       (nOut sOut : IssueRecord → Option PyError) (issues : List IssueRecord),
      (∀ ps, Gmail.mainLoop classify nC sC nOut sOut issues = .ok ps →
        ps = issues.map (fun i => { issue := i, analysis := classify i })) ∧
      ((∀ i ∈ issues, ∀ m, sOut i ≠ some (.other m)) →
        Gmail.mainLoop classify nC sC nOut sOut issues =
          .ok (issues.map (fun i => { issue := i, analysis := classify i })))) := by
  constructor
  · intro classify nC sC sN fetched
    by_cases hf : fetched = []
    · subst hf
      exact ⟨rfl, rfl, rfl⟩
    · have hfold := processFold_issues classify nC sC sN fetched ([], [])
      simp only [Backend.process_emails, hf, if_neg, List.nil_append] at *
      refine ⟨rfl, ?_, hfold⟩
      rw [hfold]
      simp
  · intro classify nC sC nOut sOut issues
    exact ⟨fun ps h => mainLoop_ok_inv classify nC sC nOut sOut issues ps h,
      mainLoop_ok_of_no_other classify nC sC nOut sOut issues⟩

/-- Witness for the amended C5 at concrete inputs: a two-issue backend
batch reports `processed = 2` with both records classified in order, and
a one-issue CLI run whose Slack post fails with a `SlackApiError`
completes successfully. -/
theorem claim_C5_amended_witness :
    (Backend.process_emails (fun i => Backend.classifyFallback i)
      true true true [sampleIssue, sampleIssue2]).processed = 2 ∧
    (Backend.process_emails (fun i => Backend.classifyFallback i)
      true true true [sampleIssue, sampleIssue2]).issues =
      [(sampleIssue, Backend.classifyFallback sampleIssue),
       (sampleIssue2, Backend.classifyFallback sampleIssue2)] ∧
    Gmail.mainLoop (fun i => Gmail.classifyFallback i) true true
      (fun _ => none) (fun _ => some (.slackApi "rate limited"))
      [sampleIssue] =
      .ok [{ issue := sampleIssue,
             analysis := Gmail.classifyFallback sampleIssue }] := by
  have hb := (claim_C5_amended.1 (fun i => Backend.classifyFallback i)
    true true true [sampleIssue, sampleIssue2])
  have hg := (claim_C5_amended.2 (fun i => Gmail.classifyFallback i)
    true true (fun _ => none) (fun _ => some (.slackApi "rate limited"))
    [sampleIssue]).2 (by simp)
  exact ⟨hb.2.1, hb.2.2, hg⟩

/-- C6: the Aggregator returns the fixed "no issues" message on an empty
batch, and on a non-empty batch the sum of the per-category counts it
computes equals the number of input items. -/
theorem claim_C6 :
    (∀ (llm : Option LlmOutcome) (today : String),
      generate_daily_summary_with_ai llm today [] =
        "📅 *Daily Maintenance Report*\n\nNo issues processed today.") ∧
    (∀ items : List ProcessedItem, items ≠ [] →
      valuesSum (summaryCounts items).1 = items.length) := by
  constructor
  · intro llm today
    rfl
  · intro items _
    have h := summaryFold_cat_sum items
      ([], [("High", 0), ("Medium", 0), ("Low", 0)])
    rw [summaryCounts, h]
    simp [valuesSum]

/-- Witness for C6: the empty batch yields the fixed message, and the
three-item sample batch has category counts summing to 3. -/
theorem claim_C6_witness :
    generate_daily_summary_with_ai none "2025-10-06" [] =
      "📅 *Daily Maintenance Report*\n\nNo issues processed today." ∧
    sampleItems ≠ [] ∧
    valuesSum (summaryCounts sampleItems).1 = sampleItems.length :=
  ⟨claim_C6.1 none "2025-10-06", by simp [sampleItems],
    claim_C6.2 sampleItems (by simp [sampleItems])⟩

/-- C7: on the batch with categories [Electrical, Electrical, Plumbing]
the dashboard's percentage computation
(`round((count / total) * 100, 1) if total > 0 else 0`) yields 66.7 for
Electrical (count 2) and 33.3 for Plumbing (count 1); for a zero total
the percentage is 0. -/
theorem claim_C7 :
    categoryStats (dashboardCounts demoBatch).1 demoBatch.length =
      [("Electrical", 2, 667/10), ("Plumbing", 1, 333/10)] ∧
    (∀ count : Nat, percentage count 0 = 0) := by
  constructor
  · have hcounts : (dashboardCounts demoBatch).1 =
        [("Electrical", 2), ("Plumbing", 1)] := by decide
    have hlen : demoBatch.length = 3 := by decide
    rw [hcounts, hlen]
    norm_num [categoryStats, percentage, round1, pyRoundHalfEven]
    constructor
    · have hf : Int.fract ((2000 : ℚ) / 3) = 2 / 3 := by
        rw [Int.fract]
        norm_num
      rw [hf]
      norm_num
    · have hf : Int.fract ((1000 : ℚ) / 3) = 1 / 3 := by
        rw [Int.fract]
        norm_num
      rw [hf]
      norm_num
  · intro count
    simp [percentage]

/-- C8 counterexample: the Notification Sink does not truncate.  With a
summary of 2001 characters, the summary block text built by
`format_maintenance_slack_message` (`gmail.py`) and by
`send_slack_notification` (`backend.py`) is longer than 2000 characters
when submitted, contradicting "both sinks truncate every free-text field
longer than 2000 units". -/
theorem claim_C8_counterexample :
    longAnalysis.summary.length = 2001 ∧
    2000 < ((Gmail.format_maintenance_slack_message "2025-10-06" sampleIssue
      longAnalysis).2.getD 6 "").length ∧
    2000 < ((Backend.slackBlockTexts sampleIssue longAnalysis).getD 4 "").length := by
  have hlen : longAnalysis.summary.length = 2001 := by
    show (List.replicate 2001 'a').length = 2001
    rw [List.length_replicate]
  refine ⟨hlen, ?_, ?_⟩
  · have he : (Gmail.format_maintenance_slack_message "2025-10-06" sampleIssue
        longAnalysis).2.getD 6 "" = "*📋 Summary:*\n" ++ longAnalysis.summary := rfl
    rw [he, String.length_append, hlen]
    omega
  · have he : (Backend.slackBlockTexts sampleIssue longAnalysis).getD 4 "" =
        "*üìã Summary:*\n" ++ longAnalysis.summary := rfl
    rw [he, String.length_append, hlen]
    omega

/-- C8 (amended): the Ticket Sink (`add_to_notion`, both variants)
truncates every free-text field it submits to at most 2000 units, and
both sinks are no-ops (never throw) when their backing collaborator is
unconfigured; the Notification Sink, however, does not truncate — its
summary block passes the analysis summary through unchanged. -/
theorem claim_C8_amended (issue : IssueRecord) (analysis : AnalysisResult)
    (now : String) :
    (∀ t ∈ Gmail.notionContents issue analysis, t.length ≤ 2000) ∧
    (∀ t ∈ Backend.notionContents issue analysis, t.length ≤ 2000) ∧
    (∀ o, add_to_notion false o = .ok .skipped) ∧
    (∀ o, send_slack_message false o = .ok .skipped) ∧
    (∀ o, send_slack_notification false o = .ok .skipped) ∧
    (Gmail.format_maintenance_slack_message now issue analysis).2.getD 6 "" =
      "*📋 Summary:*\n" ++ analysis.summary ∧
    (Backend.slackBlockTexts issue analysis).getD 4 "" =
      "*üìã Summary:*\n" ++ analysis.summary := by
  refine ⟨?_, ?_, fun o => rfl, fun o => rfl, fun o => rfl, rfl, rfl⟩
  · intro t ht
    simp only [Gmail.notionContents, List.mem_cons, List.not_mem_nil,
      or_false] at ht
    rcases ht with rfl | rfl | rfl | rfl | rfl | rfl <;>
      exact pyTruncate_length_le _ _
  · intro t ht
    simp only [Backend.notionContents, List.mem_cons, List.not_mem_nil,
      or_false] at ht
    rcases ht with rfl | rfl | rfl | rfl | rfl <;>
      exact pyTruncate_length_le _ _

/-- Witness for the amended C8 at concrete inputs: the truncated long
summary submitted to Notion is exactly 2000 characters, and the
unconfigured sinks are no-ops. -/
theorem claim_C8_amended_witness :
    pyTruncate longAnalysis.summary 2000 ∈
      Gmail.notionContents sampleIssue longAnalysis ∧
    (pyTruncate longAnalysis.summary 2000).length ≤ 2000 ∧
    add_to_notion false none = .ok .skipped ∧
    send_slack_message false none = .ok .skipped ∧
    send_slack_notification false none = .ok .skipped := by
  have h := claim_C8_amended sampleIssue longAnalysis "2025-10-06"
  have hmem : pyTruncate longAnalysis.summary 2000 ∈
      Gmail.notionContents sampleIssue longAnalysis := by
    simp [Gmail.notionContents]
  exact ⟨hmem, h.1 _ hmem, h.2.2.1 none, h.2.2.2.1 none, h.2.2.2.2.1 none⟩

/-- C9 counterexample: a notification-channel write failure that is not a
`SlackApiError` (for example a connection failure raised by the HTTP
layer) is not caught by either `send_slack_message` (`gmail.py`, whose
handler is `except SlackApiError`) or `send_slack_notification`
(`backend.py`, same handler), so it propagates to the caller —
contradicting "no sink write failure ever propagates". -/
theorem claim_C9_counterexample :
    send_slack_message true (some (.other "connection reset")) =
      .error (.other "connection reset") ∧
    send_slack_notification true (some (.other "connection reset")) =
      .error (.other "connection reset") :=
  ⟨rfl, rfl⟩

/-- C9 (amended): the Ticket Sink (`add_to_notion`) catches every write
failure and returns normally; the Notification Sink
(`send_slack_message` / `send_slack_notification`) returns normally on
success and on any `SlackApiError` failure — the only exception type its
handler names — while other failure types are not caught. -/
theorem claim_C9_amended :
    (∀ (c : Bool) (o : Option PyError), ∃ r, add_to_notion c o = .ok r) ∧
    (∀ (c : Bool) (m : String), ∃ r,
      send_slack_message c (some (.slackApi m)) = .ok r) ∧
    (∀ c : Bool, ∃ r, send_slack_message c none = .ok r) ∧
    (∀ (c : Bool) (m : String), ∃ r,
      send_slack_notification c (some (.slackApi m)) = .ok r) ∧
    (∀ c : Bool, ∃ r, send_slack_notification c none = .ok r) := by
  refine ⟨add_to_notion_ok, fun c m => ?_, fun c => ?_, fun c m => ?_,
    fun c => ?_⟩ <;> cases c <;>
    simp [send_slack_message, send_slack_notification]

/-- C10: every record produced by `fetch_gmail_issues` has all five
fields, with the documented defaults for missing headers: no `Subject`
header gives `"(No Subject)"`, no `From` header gives `"(Unknown)"`, no
`Date` header gives `""`, and a missing snippet gives `""`; present
headers pass their value through. -/
theorem claim_C10 (msgs : List GmailMessage) (m : GmailMessage)
    (hm : m ∈ msgs) :
    normalizeMessage m ∈ fetch_gmail_issues msgs ∧
    (normalizeMessage m).id = m.id ∧
    (headerValue m.headers "Subject" = none →
      (normalizeMessage m).subject = "(No Subject)") ∧
    (headerValue m.headers "From" = none →
      (normalizeMessage m).sender = "(Unknown)") ∧
    (headerValue m.headers "Date" = none → (normalizeMessage m).date = "") ∧
    (m.snippet = none → (normalizeMessage m).snippet = "") ∧
    (∀ v, headerValue m.headers "Subject" = some v →
      (normalizeMessage m).subject = v) ∧
    (∀ v, headerValue m.headers "From" = some v →
      (normalizeMessage m).sender = v) ∧
    (∀ v, headerValue m.headers "Date" = some v →
      (normalizeMessage m).date = v) ∧
    (∀ v, m.snippet = some v → (normalizeMessage m).snippet = v) := by
  refine ⟨List.mem_map_of_mem normalizeMessage hm, rfl, fun h => ?_,
    fun h => ?_, fun h => ?_, fun h => ?_, fun v h => ?_, fun v h => ?_,
    fun v h => ?_, fun v h => ?_⟩ <;>
    simp [normalizeMessage, h]

/-- Witness for C10: a fetched message with no headers and no snippet key
normalizes to the four documented defaults. -/
theorem claim_C10_witness :
    emptyMessage ∈ [emptyMessage] ∧
    normalizeMessage emptyMessage ∈ fetch_gmail_issues [emptyMessage] ∧
    (normalizeMessage emptyMessage).subject = "(No Subject)" ∧
    (normalizeMessage emptyMessage).sender = "(Unknown)" ∧
    (normalizeMessage emptyMessage).date = "" ∧
    (normalizeMessage emptyMessage).snippet = "" := by
  have h := claim_C10 [emptyMessage] emptyMessage (by simp)
  exact ⟨by simp, h.1, h.2.2.1 rfl, h.2.2.2.1 rfl, h.2.2.2.2.1 rfl,
    h.2.2.2.2.2.1 rfl⟩
